import Mathlib

/-!
Shallow embedding of the hyperenclave architecture-abstraction layer.

Each definition mirrors one item of the Rust source:
* `src/memory/addr.rs` — page-alignment helpers over `usize`
* `src/cpumask.rs` — the `CpuMask` bitset of up to 512 CPUs
* `src/arch/ARM/s1pt.rs` — stage-1 descriptor attributes, the
  descriptor→`MemFlags` decoder, and the `PTEntry` operations
* `src/arch/x86_64/context.rs` — `LinuxContext` capture/restore
* `src/arch/ARM/context.rs` — the ARM `LinuxContext::load_from` indices

Machine integers (`u64`/`usize`) are modelled as `Nat` with explicit
masking/`% 2^64` where the Rust code wraps or truncates.
-/

namespace HyperEnclave

/-! ### Address model (src/memory/addr.rs) -/

/-- Width of `usize` on the supported targets: 64 bits. -/
def USIZE_MOD : Nat := 2 ^ 64

/-- Modelled from the spec: `PAGE_SIZE` lives in `crate::consts`, which is not
part of the given sources; both supported families use 4 KiB base pages
(the stage-1 descriptor comments speak of a "4KB page"). -/
def PAGE_SIZE : Nat := 4096

/-- Rust `align_down`: `addr & !(PAGE_SIZE - 1)`; the `usize` complement of
`PAGE_SIZE - 1` is `2^64 - PAGE_SIZE`. -/
def align_down (addr : Nat) : Nat := addr &&& (USIZE_MOD - PAGE_SIZE)

/-- Rust `align_up`: `(addr + PAGE_SIZE - 1) & !(PAGE_SIZE - 1)` with the
addition wrapping modulo `2^64` as release-mode `usize` arithmetic does. -/
def align_up (addr : Nat) : Nat :=
  ((addr + (PAGE_SIZE - 1)) % USIZE_MOD) &&& (USIZE_MOD - PAGE_SIZE)

/-- Rust `page_offset`: `addr & (PAGE_SIZE - 1)`. -/
def page_offset (addr : Nat) : Nat := addr &&& (PAGE_SIZE - 1)

/-- Rust `is_aligned`: `page_offset(addr) == 0`. -/
def is_aligned (addr : Nat) : Bool := page_offset addr == 0

lemma land_land_of_land_eq {b c : Nat} (h : b &&& c = b) (x : Nat) :
    (x &&& b) &&& c = x &&& b := by
  rw [Nat.land_assoc, h]

lemma land_land_of_land_zero {b c : Nat} (h : b &&& c = 0) (x : Nat) :
    (x &&& b) &&& c = 0 := by
  rw [Nat.land_assoc, h]
  simp [Nat.land]

/-- C7: for every `usize` address `x`, `align_down (align_up x) = align_up x`,
`is_aligned (align_up x)` holds, and `page_offset (align_down x) = 0`, with the
addition in `align_up` wrapping modulo `2^64` as in the code. -/
theorem align_helpers_roundtrip (x : Nat) (_hx : x < USIZE_MOD) :
    align_down (align_up x) = align_up x ∧
    is_aligned (align_up x) = true ∧
    page_offset (align_down x) = 0 := by
  refine ⟨?_, ?_, ?_⟩
  · unfold align_down align_up
    exact land_land_of_land_eq (by decide) _
  · unfold is_aligned page_offset align_up
    rw [land_land_of_land_zero (by decide)]
    rfl
  · unfold page_offset align_down
    exact land_land_of_land_zero (by decide) _

/-- Witness for C7 at the concrete address 5. -/
theorem align_helpers_roundtrip_witness :
    align_down (align_up 5) = align_up 5 ∧
    is_aligned (align_up 5) = true ∧
    page_offset (align_down 5) = 0 :=
  align_helpers_roundtrip 5 (by decide)

/-! ### CpuMask (src/cpumask.rs) -/

/-- Rust `NR_CPUS`: maximum number of supported CPUs. -/
def NR_CPUS : Nat := 512

/-- Rust `BITS_PER_USIZE` on a 64-bit target. -/
def BITS_PER_USIZE : Nat := 64

/-- Rust `CPU_MASK_LEN = (NR_CPUS + BITS_PER_USIZE - 1) / BITS_PER_USIZE`. -/
def CPU_MASK_LEN : Nat := (NR_CPUS + BITS_PER_USIZE - 1) / BITS_PER_USIZE

/-- Rust `CpuMask([usize; CPU_MASK_LEN])`, modelled as the array of words. -/
def CpuMask : Type := Fin CPU_MASK_LEN → Nat

/-- Word index `cpuid / BITS_PER_USIZE`; in bounds for `cpuid < NR_CPUS`,
matching the Rust array access that would otherwise panic. -/
def wordIdx (i : Fin NR_CPUS) : Fin CPU_MASK_LEN :=
  ⟨i.val / BITS_PER_USIZE, by have := i.isLt; simp [CPU_MASK_LEN, NR_CPUS, BITS_PER_USIZE] at *; omega⟩

/-- Bit index `cpuid % BITS_PER_USIZE`. -/
def bitIdx (i : Fin NR_CPUS) : Nat := i.val % BITS_PER_USIZE

/-- Rust `CpuMask::set_cpu`: `self.0[cpuid / 64] |= 1 << (cpuid % 64)`. -/
def set_cpu (m : CpuMask) (i : Fin NR_CPUS) : CpuMask :=
  Function.update m (wordIdx i) (m (wordIdx i) ||| (1 <<< bitIdx i))

/-- Rust `CpuMask::clear_cpu`: `self.0[cpuid / 64] &= !(1 << (cpuid % 64))`;
the `usize` complement of `1 << k` is `(2^64 - 1) ^^^ (1 <<< k)`. -/
def clear_cpu (m : CpuMask) (i : Fin NR_CPUS) : CpuMask :=
  Function.update m (wordIdx i)
    (m (wordIdx i) &&& ((USIZE_MOD - 1) ^^^ (1 <<< bitIdx i)))

/-- Rust `CpuMask::test_cpu`: `self.0[cpuid / 64] & (1 << (cpuid % 64))`. -/
def test_cpu (m : CpuMask) (i : Fin NR_CPUS) : Nat :=
  m (wordIdx i) &&& (1 <<< bitIdx i)

/-- Rust `CpuMask::clear`: `self.0 = [0; CPU_MASK_LEN]`. -/
def clear_all (_m : CpuMask) : CpuMask := fun _ => 0

lemma one_shiftLeft (k : Nat) : (1 <<< k) = 2 ^ k := by
  rw [Nat.shiftLeft_eq, Nat.one_mul]

lemma bitIdx_lt (i : Fin NR_CPUS) : bitIdx i < 64 := by
  simp [bitIdx, BITS_PER_USIZE]
  omega

lemma eq_of_wordIdx_bitIdx {i j : Fin NR_CPUS}
    (hw : wordIdx i = wordIdx j) (hb : bitIdx i = bitIdx j) : i = j := by
  have h1 : i.val / 64 = j.val / 64 := congrArg Fin.val hw
  have h2 : i.val % 64 = j.val % 64 := hb
  have : i.val = j.val := by omega
  exact Fin.ext this

/-- C8: setting cpu `i` makes `test_cpu i` nonzero and leaves `test_cpu j`
unchanged for `j ≠ i`; clearing `i` after setting makes `test_cpu i` zero;
after `clear()` every index tests zero. -/
theorem cpumask_set_clear_test (m : CpuMask) (i j : Fin NR_CPUS) (hij : j ≠ i) :
    test_cpu (set_cpu m i) i ≠ 0 ∧
    test_cpu (set_cpu m i) j = test_cpu m j ∧
    test_cpu (clear_cpu (set_cpu m i) i) i = 0 ∧
    (∀ k : Fin NR_CPUS, test_cpu (clear_all m) k = 0) := by
  refine ⟨?_, ?_, ?_, ?_⟩
  · unfold test_cpu set_cpu
    rw [Function.update_same]
    intro h0
    have hb := congrArg (fun n => n.testBit (bitIdx i)) h0
    simp [Nat.testBit_land, Nat.testBit_lor, one_shiftLeft,
      Nat.testBit_two_pow_self, Nat.zero_testBit] at hb
  · by_cases hw : wordIdx j = wordIdx i
    · have hb : bitIdx j ≠ bitIdx i := fun hbb => hij (eq_of_wordIdx_bitIdx hw hbb)
      unfold test_cpu set_cpu
      rw [hw, Function.update_same]
      apply Nat.eq_of_testBit_eq
      intro n
      simp only [Nat.testBit_land, Nat.testBit_lor, one_shiftLeft]
      by_cases hn : n = bitIdx j
      · subst hn
        simp [Nat.testBit_two_pow_of_ne (Ne.symm hb)]
      · simp [Nat.testBit_two_pow_of_ne (Ne.symm hn)]
    · unfold test_cpu set_cpu
      rw [Function.update_noteq hw]
  · unfold test_cpu clear_cpu set_cpu
    rw [Function.update_same, Function.update_same]
    apply Nat.eq_of_testBit_eq
    intro n
    simp only [Nat.testBit_land, Nat.testBit_lor, Nat.testBit_xor,
      one_shiftLeft, Nat.zero_testBit]
    by_cases hn : n = bitIdx i
    · subst hn
      have hlt := bitIdx_lt i
      have hm : Nat.testBit (USIZE_MOD - 1) (bitIdx i) = true := by
        rw [show USIZE_MOD - 1 = 2 ^ 64 - 1 from rfl, Nat.testBit_two_pow_sub_one]
        simp [hlt]
      simp [Nat.testBit_two_pow_self, hm]
    · simp [Nat.testBit_two_pow_of_ne (Ne.symm hn)]
  · intro k
    unfold test_cpu clear_all
    simp [Nat.land]

/-- Witness for C8 with the all-zero mask and cpu indices 0 and 1. -/
theorem cpumask_set_clear_test_witness :
    test_cpu (set_cpu (fun _ => 0) ⟨0, by decide⟩) ⟨0, by decide⟩ ≠ 0 ∧
    test_cpu (set_cpu (fun _ => 0) ⟨0, by decide⟩) ⟨1, by decide⟩ =
      test_cpu (fun _ => 0) ⟨1, by decide⟩ ∧
    test_cpu (clear_cpu (set_cpu (fun _ => 0) ⟨0, by decide⟩) ⟨0, by decide⟩)
      ⟨0, by decide⟩ = 0 ∧
    (∀ k : Fin NR_CPUS, test_cpu (clear_all (fun _ => 0)) k = 0) :=
  cpumask_set_clear_test (fun _ => 0) ⟨0, by decide⟩ ⟨1, by decide⟩ (by decide)

/-! ### Stage-1 descriptor codec (src/arch/ARM/s1pt.rs) -/

/-- Modelled from the spec: `MemFlags` (defined in `src/memory`, not among the
given sources) is "a bitset of semantic permissions — readable, writable,
executable, user-accessible, device/IO-mapped, DMA-capable, encrypted,
not present, no large pages, and a generic communication-region marker". -/
structure MemFlags where
  read : Bool
  write : Bool
  execute : Bool
  user : Bool
  device : Bool
  dma : Bool
  encrypted : Bool
  no_present : Bool
  no_hugepages : Bool
  comm_region : Bool
deriving DecidableEq, Repr

/-- Empty bitset, Rust `MemFlags::empty()`. -/
def MemFlags.empty : MemFlags :=
  ⟨false, false, false, false, false, false, false, false, false, false⟩

/-! Stage-1 `DescriptorAttr` bit constants, exactly as declared in the
`bitflags!` block of `s1pt.rs`. -/

def VALID : Nat := 1 <<< 0
def NON_BLOCK : Nat := 1 <<< 1
def ATTR_INDX : Nat := 0b111 <<< 2
def NS : Nat := 1 <<< 5
def AP_EL0 : Nat := 1 <<< 6
def AP_RO : Nat := 1 <<< 7
def INNER : Nat := 1 <<< 8
def SHAREABLE : Nat := 1 <<< 9
def AF : Nat := 1 <<< 10
def NG : Nat := 1 <<< 11
def CONTIGUOUS : Nat := 1 <<< 52
def PXN : Nat := 1 <<< 53
def UXN : Nat := 1 <<< 54
def PXN_TABLE : Nat := 1 <<< 59
def XN_TABLE : Nat := 1 <<< 60
def AP_NO_EL0_TABLE : Nat := 1 <<< 61
def AP_NO_WRITE_TABLE : Nat := 1 <<< 62
def NS_TABLE : Nat := 1 <<< 63

/-- Union of all bits declared in the `bitflags!` block; `from_bits_truncate`
keeps exactly these. -/
def DESC_ALL : Nat :=
  VALID ||| NON_BLOCK ||| ATTR_INDX ||| NS ||| AP_EL0 ||| AP_RO ||| INNER |||
  SHAREABLE ||| AF ||| NG ||| CONTIGUOUS ||| PXN ||| UXN ||| PXN_TABLE |||
  XN_TABLE ||| AP_NO_EL0_TABLE ||| AP_NO_WRITE_TABLE ||| NS_TABLE

/-- bitflags `from_bits_truncate`: drop bits outside the declared set. -/
def from_bits_truncate (x : Nat) : Nat := x &&& DESC_ALL

/-- bitflags `contains`: all bits of `b` are present in `a`. -/
def contains (a b : Nat) : Bool := (a &&& b) == b

/-- bitflags `intersects`: some bit of `b` is present in `a`. -/
def intersects (a b : Nat) : Bool := (a &&& b) != 0

/-- Rust `enum MemType { Device = 0, Normal = 1 }`. -/
inductive MemType where
  | Device
  | Normal
deriving DecidableEq, Repr

/-- Discriminant values of `MemType`. -/
def MemType.val : MemType → Nat
  | .Device => 0
  | .Normal => 1

/-- Rust `DescriptorAttr::ATTR_INDEX_MASK = 0b111_00`. -/
def ATTR_INDEX_MASK : Nat := 0b11100

/-- Rust `DescriptorAttr::from_mem_type`. -/
def from_mem_type (t : MemType) : Nat :=
  let bits := t.val <<< 2
  let bits := if t = MemType.Normal then bits ||| (INNER ||| SHAREABLE) else bits
  from_bits_truncate bits

/-- Rust `DescriptorAttr::mem_type`; the `panic!` on an unknown
attribute-index value is modelled as `none`. -/
def mem_type (attr : Nat) : Option MemType :=
  match (attr &&& ATTR_INDEX_MASK) >>> 2 with
  | 0 => some MemType.Device
  | 1 => some MemType.Normal
  | _ => none

/-- Rust `impl From<DescriptorAttr> for MemFlags` (the stage-1 decoder),
branch for branch. -/
def memflags_of_attr (attr : Nat) : MemFlags :=
  if contains attr VALID = false then
    { MemFlags.empty with no_present := true }
  else
    let f0 := { MemFlags.empty with read := true }
    let f1 := if contains attr AP_RO = false then { f0 with write := true } else f0
    if contains attr AP_EL0 = true then
      let f2 := { f1 with user := true }
      if contains attr UXN = false then { f2 with execute := true } else f2
    else
      if intersects attr PXN = false then { f1 with execute := true } else f1

/-- Modelled from the spec: the encoder `impl From<MemFlags> for DescriptorAttr`
is referenced by `set_flags` but is not among the given sources. Following the
spec's codec policy (section 4.3): memory type from the device flag via
`from_mem_type`, the valid bit is the negation of "not present", the read-only
bit is the negation of "writable", the EL0 bit mirrors "user-accessible", and
the execute-never bits are scoped by privilege level. -/
def attr_of_memflags (f : MemFlags) : Nat :=
  let attr := if f.device then from_mem_type MemType.Device
              else from_mem_type MemType.Normal
  let attr := if f.no_present then attr else attr ||| VALID
  let attr := if f.write then attr else attr ||| AP_RO
  if f.user then
    let attr := attr ||| AP_EL0
    if f.execute then attr else attr ||| UXN
  else
    let attr := attr ||| UXN
    if f.execute then attr else attr ||| PXN

/-- Rust `PTEntry(u64)`. -/
structure PTEntry where
  raw : Nat
deriving DecidableEq, Repr

/-- Rust `PHYS_ADDR_MASK = 0xffff_ffff_ffff & !(PAGE_SIZE - 1)`. -/
def PHYS_ADDR_MASK : Nat := 0xffffffffffff &&& (USIZE_MOD - PAGE_SIZE)

/-- Complement of `PHYS_ADDR_MASK` within a 64-bit word. -/
def PHYS_ADDR_MASK_NOT : Nat := (USIZE_MOD - 1) ^^^ PHYS_ADDR_MASK

/-- Rust `PTEntry::addr`. -/
def PTEntry.addr (e : PTEntry) : Nat := e.raw &&& PHYS_ADDR_MASK

/-- Rust `PTEntry::flags`: decode via `DescriptorAttr::from_bits_truncate`. -/
def PTEntry.flags (e : PTEntry) : MemFlags :=
  memflags_of_attr (from_bits_truncate e.raw)

/-- Rust `PTEntry::is_unused`: the raw word is zero. -/
def PTEntry.is_unused (e : PTEntry) : Bool := e.raw == 0

/-- Rust `PTEntry::is_present`: the VALID bit is set. -/
def PTEntry.is_present (e : PTEntry) : Bool := e.raw &&& VALID != 0

/-- Rust `PTEntry::set_addr`:
`self.0 = (self.0 & !PHYS_ADDR_MASK) | (paddr & PHYS_ADDR_MASK)`. -/
def PTEntry.set_addr (e : PTEntry) (paddr : Nat) : PTEntry :=
  ⟨(e.raw &&& PHYS_ADDR_MASK_NOT) ||| (paddr &&& PHYS_ADDR_MASK)⟩

/-- Rust `PTEntry::set_flags`: encode the flags, insert or remove `NON_BLOCK`
according to `is_huge`, and keep the physical-address field. -/
def PTEntry.set_flags (e : PTEntry) (flags : MemFlags) (is_huge : Bool) : PTEntry :=
  let attr := attr_of_memflags flags
  let attr := if is_huge then attr &&& ((USIZE_MOD - 1) ^^^ NON_BLOCK)
              else attr ||| NON_BLOCK
  ⟨attr ||| (e.raw &&& PHYS_ADDR_MASK)⟩

/-- Rust `PTEntry::clear` as written in the source: the body is only a `TODO`
comment, so the entry is left unchanged. -/
def PTEntry.clear (e : PTEntry) : PTEntry := e

lemma land_two_pow (x k : Nat) : x &&& 2 ^ k = if x.testBit k then 2 ^ k else 0 := by
  apply Nat.eq_of_testBit_eq
  intro n
  by_cases hn : n = k
  · subst hn
    rcases h : x.testBit n <;>
      simp [h, Nat.testBit_land, Nat.testBit_two_pow_self, Nat.zero_testBit]
  · rcases h : x.testBit k <;>
      simp [h, Nat.testBit_land, Nat.zero_testBit,
        Nat.testBit_two_pow_of_ne (Ne.symm hn)]

lemma contains_two_pow (x k : Nat) : contains x (2 ^ k) = x.testBit k := by
  unfold contains
  rw [land_two_pow]
  rcases h : x.testBit k <;> simp [h, (Nat.two_pow_pos k).ne, (Nat.two_pow_pos k).ne']

lemma intersects_two_pow (x k : Nat) : intersects x (2 ^ k) = x.testBit k := by
  unfold intersects
  rw [land_two_pow]
  rcases h : x.testBit k <;> simp [h, (Nat.two_pow_pos k).ne, (Nat.two_pow_pos k).ne']

lemma truncate_testBit (raw k : Nat) (hk : DESC_ALL.testBit k = true) :
    (from_bits_truncate raw).testBit k = raw.testBit k := by
  unfold from_bits_truncate
  simp [Nat.testBit_land, hk]

lemma lor_land_distrib (a b c : Nat) :
    (a ||| b) &&& c = (a &&& c) ||| (b &&& c) := by
  apply Nat.eq_of_testBit_eq
  intro n
  simp only [Nat.testBit_land, Nat.testBit_lor]
  rcases a.testBit n <;> rcases b.testBit n <;> rcases c.testBit n <;> rfl

lemma contains_trunc_VALID (raw : Nat) :
    contains (from_bits_truncate raw) VALID = raw.testBit 0 := by
  have h : VALID = 2 ^ 0 := by decide
  rw [h, contains_two_pow, truncate_testBit _ _ (by decide)]

lemma contains_trunc_AP_RO (raw : Nat) :
    contains (from_bits_truncate raw) AP_RO = raw.testBit 7 := by
  have h : AP_RO = 2 ^ 7 := by decide
  rw [h, contains_two_pow, truncate_testBit _ _ (by decide)]

lemma contains_trunc_AP_EL0 (raw : Nat) :
    contains (from_bits_truncate raw) AP_EL0 = raw.testBit 6 := by
  have h : AP_EL0 = 2 ^ 6 := by decide
  rw [h, contains_two_pow, truncate_testBit _ _ (by decide)]

lemma contains_trunc_UXN (raw : Nat) :
    contains (from_bits_truncate raw) UXN = raw.testBit 54 := by
  have h : UXN = 2 ^ 54 := by decide
  rw [h, contains_two_pow, truncate_testBit _ _ (by decide)]

lemma intersects_trunc_PXN (raw : Nat) :
    intersects (from_bits_truncate raw) PXN = raw.testBit 53 := by
  have h : PXN = 2 ^ 53 := by decide
  rw [h, intersects_two_pow, truncate_testBit _ _ (by decide)]

/-- C2: decoding a raw stage-1 descriptor with the valid bit (bit 0) clear
yields exactly the not-present flag; with it set the flags always contain
READ, and contain WRITE iff the read-only bit (bit 7, `AP_RO`) is clear. -/
theorem s1_decode_valid_read_write (raw : Nat) (_h : raw < USIZE_MOD) :
    (raw.testBit 0 = false →
      PTEntry.flags ⟨raw⟩ = { MemFlags.empty with no_present := true }) ∧
    (raw.testBit 0 = true →
      (PTEntry.flags ⟨raw⟩).read = true ∧
      ((PTEntry.flags ⟨raw⟩).write = true ↔ raw.testBit 7 = false)) := by
  unfold PTEntry.flags memflags_of_attr
  rw [contains_trunc_VALID, contains_trunc_AP_RO, contains_trunc_AP_EL0,
    contains_trunc_UXN, intersects_trunc_PXN]
  constructor
  · intro h0
    simp [h0]
  · intro h0
    rcases h7 : raw.testBit 7 <;> rcases h6 : raw.testBit 6 <;>
      rcases h54 : raw.testBit 54 <;> rcases h53 : raw.testBit 53 <;>
      simp [h0, h7, h6, h54, h53, MemFlags.empty]

/-- Witness for C2: the all-zero word decodes to exactly NO_PRESENT; the word
1 (only VALID set) decodes to readable and writable. -/
theorem s1_decode_valid_read_write_witness :
    PTEntry.flags ⟨0⟩ = { MemFlags.empty with no_present := true } ∧
    (PTEntry.flags ⟨1⟩).read = true ∧
    ((PTEntry.flags ⟨1⟩).write = true ↔ (1 : Nat).testBit 7 = false) :=
  ⟨(s1_decode_valid_read_write 0 (by decide)).1 (by decide),
   ((s1_decode_valid_read_write 1 (by decide)).2 (by decide)).1,
   ((s1_decode_valid_read_write 1 (by decide)).2 (by decide)).2⟩

/-- C3: for a valid stage-1 descriptor, if the EL0-accessible bit (bit 6) is
set the decoded flags contain EXECUTE iff UXN (bit 54) is clear; if it is
clear they contain EXECUTE iff PXN (bit 53) is clear. -/
theorem s1_decode_execute (raw : Nat) (hv : raw.testBit 0 = true) :
    (raw.testBit 6 = true →
      ((PTEntry.flags ⟨raw⟩).execute = true ↔ raw.testBit 54 = false)) ∧
    (raw.testBit 6 = false →
      ((PTEntry.flags ⟨raw⟩).execute = true ↔ raw.testBit 53 = false)) := by
  unfold PTEntry.flags memflags_of_attr
  rw [contains_trunc_VALID, contains_trunc_AP_RO, contains_trunc_AP_EL0,
    contains_trunc_UXN, intersects_trunc_PXN]
  rcases h7 : raw.testBit 7 <;> rcases h6 : raw.testBit 6 <;>
    rcases h54 : raw.testBit 54 <;> rcases h53 : raw.testBit 53 <;>
    simp [hv, h7, h6, h54, h53, MemFlags.empty]

/-- Witness for C3: word 65 (VALID + AP_EL0) is EL0-accessible and executable
there; word 1 (VALID only) is privileged-executable. -/
theorem s1_decode_execute_witness :
    ((PTEntry.flags ⟨65⟩).execute = true ↔ (65 : Nat).testBit 54 = false) ∧
    ((PTEntry.flags ⟨1⟩).execute = true ↔ (1 : Nat).testBit 53 = false) :=
  ⟨(s1_decode_execute 65 (by decide)).1 (by decide),
   (s1_decode_execute 1 (by decide)).2 (by decide)⟩

/-- C4: `mem_type` returns Device for attribute-index 0 and Normal for 1, and
aborts (modelled as `none`) for every index outside `{0, 1}`. -/
theorem mem_type_known_indices (attr : Nat) :
    ((attr &&& ATTR_INDEX_MASK) >>> 2 = 0 → mem_type attr = some MemType.Device) ∧
    ((attr &&& ATTR_INDEX_MASK) >>> 2 = 1 → mem_type attr = some MemType.Normal) ∧
    ((attr &&& ATTR_INDEX_MASK) >>> 2 ≠ 0 → (attr &&& ATTR_INDEX_MASK) >>> 2 ≠ 1 →
      mem_type attr = none) := by
  refine ⟨fun h => ?_, fun h => ?_, fun h0 h1 => ?_⟩ <;> unfold mem_type
  · rw [h]
  · rw [h]
  · rcases hv : (attr &&& ATTR_INDEX_MASK) >>> 2 with _ | n
    · exact absurd hv h0
    · rcases n with _ | n2
      · exact absurd hv h1
      · rfl

/-- Witness for C4 at attribute words 0 (index 0), 4 (index 1) and 8 (index 2). -/
theorem mem_type_known_indices_witness :
    mem_type 0 = some MemType.Device ∧
    mem_type 4 = some MemType.Normal ∧
    mem_type 8 = none :=
  ⟨(mem_type_known_indices 0).1 (by decide),
   (mem_type_known_indices 4).2.1 (by decide),
   (mem_type_known_indices 8).2.2 (by decide) (by decide)⟩

lemma attr_of_memflags_land (f : MemFlags) :
    attr_of_memflags f &&& PHYS_ADDR_MASK = 0 := by
  rcases f with ⟨r, w, x, u, dev, dma, enc, np, nh, cr⟩
  cases r <;> cases w <;> cases x <;> cases u <;> cases dev <;> cases dma <;>
    cases enc <;> cases np <;> cases nh <;> cases cr <;> decide

/-- C5: `set_addr` rewrites only the physical-address field (bits 12..47) and
keeps every bit outside it; `set_flags` keeps the physical-address field. -/
theorem set_addr_set_flags_preserve (e : PTEntry) (paddr : Nat)
    (flags : MemFlags) (is_huge : Bool) :
    ((e.set_addr paddr).raw &&& PHYS_ADDR_MASK_NOT =
      e.raw &&& PHYS_ADDR_MASK_NOT) ∧
    ((e.set_addr paddr).raw &&& PHYS_ADDR_MASK = paddr &&& PHYS_ADDR_MASK) ∧
    ((e.set_flags flags is_huge).raw &&& PHYS_ADDR_MASK =
      e.raw &&& PHYS_ADDR_MASK) := by
  refine ⟨?_, ?_, ?_⟩
  · show ((e.raw &&& PHYS_ADDR_MASK_NOT) ||| (paddr &&& PHYS_ADDR_MASK)) &&&
      PHYS_ADDR_MASK_NOT = _
    rw [lor_land_distrib, land_land_of_land_eq (by decide),
      land_land_of_land_zero (by decide)]
    simp
  · show ((e.raw &&& PHYS_ADDR_MASK_NOT) ||| (paddr &&& PHYS_ADDR_MASK)) &&&
      PHYS_ADDR_MASK = _
    rw [lor_land_distrib, land_land_of_land_zero (by decide),
      land_land_of_land_eq (by decide)]
    simp
  · cases is_huge
    · show ((attr_of_memflags flags ||| NON_BLOCK) |||
        (e.raw &&& PHYS_ADDR_MASK)) &&& PHYS_ADDR_MASK = _
      rw [lor_land_distrib, lor_land_distrib, attr_of_memflags_land,
        (by decide : NON_BLOCK &&& PHYS_ADDR_MASK = 0),
        land_land_of_land_eq (by decide)]
      simp
    · show ((attr_of_memflags flags &&& ((USIZE_MOD - 1) ^^^ NON_BLOCK)) |||
        (e.raw &&& PHYS_ADDR_MASK)) &&& PHYS_ADDR_MASK = _
      rw [lor_land_distrib, Nat.land_assoc,
        (by decide : ((USIZE_MOD - 1) ^^^ NON_BLOCK) &&& PHYS_ADDR_MASK =
          PHYS_ADDR_MASK),
        attr_of_memflags_land, land_land_of_land_eq (by decide)]
      simp

/-- C6 (code bug): the source body of `PTEntry::clear` is an empty `TODO`, so
on the entry with raw word 1 it leaves the word at 1, `is_unused` false,
`is_present` true, and the flags are not the pure not-present decoding. -/
theorem clear_leaves_entry_unchanged :
    (PTEntry.clear ⟨1⟩).raw = 1 ∧
    PTEntry.is_unused (PTEntry.clear ⟨1⟩) = false ∧
    PTEntry.is_present (PTEntry.clear ⟨1⟩) = true ∧
    PTEntry.flags (PTEntry.clear ⟨1⟩) ≠
      { MemFlags.empty with no_present := true } := by
  decide

/-! ### Execution context switch (src/arch/x86_64/context.rs) -/

/-- Modelled from the spec: `Segment` (in `src/arch/x86_64/segmentation.rs`,
not among the given sources) is "a selector plus base/limit/access-rights
snapshot for a single descriptor-table entry"; capture and restore traffic
only in the selector and the base, so those are kept. -/
structure Segment where
  selector : Nat
  base : Nat
deriving DecidableEq, Repr

/-- The x86 `DescriptorTablePointer` (limit plus base) from the `x86_64`
crate, as stored by `sgdt`/`sidt` and written by `lgdt`/`lidt`. -/
structure DTPointer where
  limit : Nat
  base : Nat
deriving DecidableEq, Repr

/-- Fake register file for the capture/restore transition: every machine
register that `LinuxContext::load_from` reads or that either transition
writes. `descBase` abstracts the descriptor-table memory that
`Segment::from_selector` consults for a segment's base; descriptor-table
memory contents are otherwise outside this model. -/
structure MachineState where
  pat : Nat
  efer : Nat
  kernel_gsbase : Nat
  star : Nat
  cstar : Nat
  fmask : Nat
  lstar : Nat
  mtrr_def_type : Nat
  cr0 : Nat
  cr3 : Nat
  cr4 : Nat
  gdtr : DTPointer
  idtr : DTPointer
  cs : Nat
  ds : Nat
  es : Nat
  ss : Nat
  fs : Nat
  gs : Nat
  tr : Nat
  fs_base : Nat
  gs_base : Nat
  descBase : Nat → Nat

/-- Rust `struct LinuxContext` of `src/arch/x86_64/context.rs`, field for
field. -/
structure LinuxContext where
  rsp : Nat
  rip : Nat
  r15 : Nat
  r14 : Nat
  r13 : Nat
  r12 : Nat
  rbx : Nat
  rbp : Nat
  cs : Segment
  ds : Segment
  es : Segment
  fs : Segment
  gs : Segment
  tss : Segment
  gdt : DTPointer
  idt : DTPointer
  cr0 : Nat
  cr3 : Nat
  cr4 : Nat
  efer : Nat
  lstar : Nat
  pat : Nat
  kernel_gsbase : Nat
  star : Nat
  cstar : Nat
  fmask : Nat
  mtrr_def_type : Nat
deriving DecidableEq, Repr

/-- Bits defined by `Cr0Flags` in the `x86_64` crate; `Cr0::read` is
`from_bits_truncate` of the raw register. -/
def CR0_DEFINED : Nat := 0xE005003F

/-- Bits defined by `Cr4Flags` in the `x86_64` crate (bits 0..14 and 16..24);
`Cr4::read` is `from_bits_truncate` of the raw register. -/
def CR4_DEFINED : Nat := 0x1FF7FFF

/-- Address bits kept by `Cr3::read` (`value & 0x000f_ffff_ffff_f000`). -/
def CR3_FRAME_MASK : Nat := 0xFFFFFFFFFF000

/-- Rust `SAVED_LINUX_REGS` of the x86_64 context: 7 stack words. -/
def SAVED_LINUX_REGS : Nat := 7

/-- Modelled from the spec: the hypervisor-owned descriptor tables and
selectors installed by capture live in `src/arch/x86_64/tables.rs`, which is
not among the given sources; the concrete values are placeholders and no
theorem depends on them. -/
def KCODE_SELECTOR : Nat := 0x10

/-- Modelled from the spec: hypervisor TSS selector placeholder (see
`KCODE_SELECTOR`). -/
def TSS_SELECTOR : Nat := 0x20

/-- Modelled from the spec: hypervisor GDT pointer placeholder. -/
def HV_GDTR : DTPointer := ⟨0, 0⟩

/-- Modelled from the spec: hypervisor IDT pointer placeholder. -/
def HV_IDTR : DTPointer := ⟨0, 0⟩

/-- Rust `LinuxContext::load_from(linux_sp)`: read the 7 saved stack words and
every register into a snapshot, then install the hypervisor GDT/IDT, CS/TSS
selectors, null DS/ES/SS, and the hypervisor PAT value `0x070106`. `stack` is
the memory at `linux_sp`. -/
def LinuxContext.load_from (linux_sp : Nat) (stack : List Nat)
    (s : MachineState) : LinuxContext × MachineState :=
  let ctx : LinuxContext := {
    rsp := linux_sp + 8 * SAVED_LINUX_REGS
    r15 := stack.getD 0 0
    r14 := stack.getD 1 0
    r13 := stack.getD 2 0
    r12 := stack.getD 3 0
    rbx := stack.getD 4 0
    rbp := stack.getD 5 0
    rip := stack.getD 6 0
    cs := ⟨s.cs, s.descBase s.cs⟩
    ds := ⟨s.ds, s.descBase s.ds⟩
    es := ⟨s.es, s.descBase s.es⟩
    fs := ⟨s.fs, s.fs_base⟩
    gs := ⟨s.gs, s.gs_base⟩
    tss := ⟨s.tr, s.descBase s.tr⟩
    gdt := s.gdtr
    idt := s.idtr
    cr0 := s.cr0 &&& CR0_DEFINED
    cr3 := s.cr3 &&& CR3_FRAME_MASK
    cr4 := s.cr4 &&& CR4_DEFINED
    efer := s.efer
    lstar := s.lstar
    pat := s.pat
    kernel_gsbase := s.kernel_gsbase
    star := s.star
    cstar := s.cstar
    fmask := s.fmask
    mtrr_def_type := s.mtrr_def_type }
  let s' := { s with
    gdtr := HV_GDTR
    cs := KCODE_SELECTOR
    ds := 0
    es := 0
    ss := 0
    idtr := HV_IDTR
    tr := TSS_SELECTOR
    pat := 0x070106 }
  (ctx, s')

/-- Rust `LinuxContext::restore`: write back the captured MSRs, CR0, CR4, and
CR3 (the latter through `PhysFrame::containing_address` with
`Cr3Flags::empty()`, so the low 12 bits are cleared), reload TR, the kernel
GDT/IDT, the segment selectors, and the FS/GS base MSRs. `Cr0::write` and
`Cr4::write` in the `x86_64` crate are read-modify-writes that keep the
register's reserved (undefined-flag) bits: `reserved | flags.bits()`. -/
def LinuxContext.restore (ctx : LinuxContext) (s : MachineState) : MachineState :=
  { s with
    pat := ctx.pat
    efer := ctx.efer
    kernel_gsbase := ctx.kernel_gsbase
    star := ctx.star
    cstar := ctx.cstar
    fmask := ctx.fmask
    cr0 := (s.cr0 &&& ((USIZE_MOD - 1) ^^^ CR0_DEFINED)) ||| ctx.cr0
    cr4 := (s.cr4 &&& ((USIZE_MOD - 1) ^^^ CR4_DEFINED)) ||| ctx.cr4
    cr3 := ctx.cr3 &&& (USIZE_MOD - PAGE_SIZE)
    tr := ctx.tss.selector
    gdtr := ctx.gdt
    idtr := ctx.idt
    cs := ctx.cs.selector
    ds := ctx.ds.selector
    es := ctx.es.selector
    fs := ctx.fs.selector
    gs := ctx.gs.selector
    fs_base := ctx.fs.base
    gs_base := ctx.gs.base }

/-- Capture immediately followed by restore of the unmutated snapshot. -/
def capture_then_restore (linux_sp : Nat) (stack : List Nat)
    (s : MachineState) : MachineState :=
  let p := LinuxContext.load_from linux_sp stack s
  LinuxContext.restore p.1 p.2

/-- Machine state whose CR3 carries a nonzero PCID (low-bit) value. -/
def st0 : MachineState :=
  { pat := 0, efer := 0, kernel_gsbase := 0, star := 0, cstar := 0, fmask := 0
    lstar := 0, mtrr_def_type := 0, cr0 := 0, cr3 := 0x1001, cr4 := 0
    gdtr := ⟨0, 0⟩, idtr := ⟨0, 0⟩, cs := 0, ds := 0, es := 0, ss := 0
    fs := 0, gs := 0, tr := 0, fs_base := 0, gs_base := 0
    descBase := fun _ => 0 }

lemma land_compl_lor_land (D x : Nat) (hx : x < USIZE_MOD) :
    (x &&& ((USIZE_MOD - 1) ^^^ D)) ||| (x &&& D) = x := by
  apply Nat.eq_of_testBit_eq
  intro n
  simp only [Nat.testBit_lor, Nat.testBit_land, Nat.testBit_xor]
  by_cases hn : n < 64
  · have hm : (USIZE_MOD - 1).testBit n = true := by
      rw [show USIZE_MOD - 1 = 2 ^ 64 - 1 from rfl, Nat.testBit_two_pow_sub_one]
      simp [hn]
    rw [hm]
    rcases hxn : x.testBit n <;> rcases hd : D.testBit n <;> rfl
  · have hxn : x.testBit n = false := by
      apply Nat.testBit_lt_two_pow
      calc x < 2 ^ 64 := hx
        _ ≤ 2 ^ n := Nat.pow_le_pow_right (by omega) (by omega)
    simp [hxn]

/-- Counterexample to C1 as stated: with pre-capture CR3 = 0x1001 (PCID 1),
capture-then-restore leaves CR3 = 0x1000 — the captured CR3 is written back
with its low 12 bits cleared, so the register is not bit-for-bit identical. -/
theorem capture_restore_cr3_not_identical :
    (capture_then_restore 4096 [0, 0, 0, 0, 0, 0, 0] st0).cr3 ≠ st0.cr3 := by
  decide

/-- C1 (amended): for every 64-bit machine state whose CR3 holds only
frame-address bits (no PCID/flag bits), capture immediately followed by
restore leaves every captured register and MSR bit-for-bit identical to its
pre-capture value; CR0 and CR4 are unconditional because `Cr0::write` and
`Cr4::write` preserve the reserved register bits, while CR3 is written back
with its low 12 bits cleared. -/
theorem capture_restore_roundtrip (linux_sp : Nat) (stack : List Nat)
    (s : MachineState)
    (hcr0 : s.cr0 < USIZE_MOD)
    (hcr4 : s.cr4 < USIZE_MOD)
    (h3 : s.cr3 &&& CR3_FRAME_MASK = s.cr3) :
    (capture_then_restore linux_sp stack s).pat = s.pat ∧
    (capture_then_restore linux_sp stack s).efer = s.efer ∧
    (capture_then_restore linux_sp stack s).kernel_gsbase = s.kernel_gsbase ∧
    (capture_then_restore linux_sp stack s).star = s.star ∧
    (capture_then_restore linux_sp stack s).cstar = s.cstar ∧
    (capture_then_restore linux_sp stack s).fmask = s.fmask ∧
    (capture_then_restore linux_sp stack s).lstar = s.lstar ∧
    (capture_then_restore linux_sp stack s).mtrr_def_type = s.mtrr_def_type ∧
    (capture_then_restore linux_sp stack s).cr0 = s.cr0 ∧
    (capture_then_restore linux_sp stack s).cr4 = s.cr4 ∧
    (capture_then_restore linux_sp stack s).cr3 = s.cr3 ∧
    (capture_then_restore linux_sp stack s).gdtr = s.gdtr ∧
    (capture_then_restore linux_sp stack s).idtr = s.idtr ∧
    (capture_then_restore linux_sp stack s).cs = s.cs ∧
    (capture_then_restore linux_sp stack s).ds = s.ds ∧
    (capture_then_restore linux_sp stack s).es = s.es ∧
    (capture_then_restore linux_sp stack s).fs = s.fs ∧
    (capture_then_restore linux_sp stack s).gs = s.gs ∧
    (capture_then_restore linux_sp stack s).tr = s.tr ∧
    (capture_then_restore linux_sp stack s).fs_base = s.fs_base ∧
    (capture_then_restore linux_sp stack s).gs_base = s.gs_base := by
  refine ⟨rfl, rfl, rfl, rfl, rfl, rfl, rfl, rfl, ?_, ?_, ?_, rfl, rfl, rfl,
    rfl, rfl, rfl, rfl, rfl, rfl, rfl⟩
  · exact land_compl_lor_land CR0_DEFINED s.cr0 hcr0
  · exact land_compl_lor_land CR4_DEFINED s.cr4 hcr4
  · show (s.cr3 &&& CR3_FRAME_MASK) &&& (USIZE_MOD - PAGE_SIZE) = s.cr3
    rw [land_land_of_land_eq (by decide), h3]

/-- Machine state with well-formed control registers for the C1 witness. -/
def st1 : MachineState :=
  { pat := 7, efer := 11, kernel_gsbase := 13, star := 17, cstar := 19
    fmask := 23, lstar := 29, mtrr_def_type := 31, cr0 := 0x21
    cr3 := 0x2000, cr4 := 0x20, gdtr := ⟨1, 2⟩, idtr := ⟨3, 4⟩, cs := 8
    ds := 16, es := 24, ss := 32, fs := 40, gs := 48, tr := 56
    fs_base := 100, gs_base := 200, descBase := fun _ => 0 }

/-- Witness for C1 (amended) at the concrete state `st1`. -/
theorem capture_restore_roundtrip_witness :
    (capture_then_restore 4096 [1, 2, 3, 4, 5, 6, 7] st1).pat = st1.pat ∧
    (capture_then_restore 4096 [1, 2, 3, 4, 5, 6, 7] st1).efer = st1.efer ∧
    (capture_then_restore 4096 [1, 2, 3, 4, 5, 6, 7] st1).kernel_gsbase =
      st1.kernel_gsbase ∧
    (capture_then_restore 4096 [1, 2, 3, 4, 5, 6, 7] st1).star = st1.star ∧
    (capture_then_restore 4096 [1, 2, 3, 4, 5, 6, 7] st1).cstar = st1.cstar ∧
    (capture_then_restore 4096 [1, 2, 3, 4, 5, 6, 7] st1).fmask = st1.fmask ∧
    (capture_then_restore 4096 [1, 2, 3, 4, 5, 6, 7] st1).lstar = st1.lstar ∧
    (capture_then_restore 4096 [1, 2, 3, 4, 5, 6, 7] st1).mtrr_def_type =
      st1.mtrr_def_type ∧
    (capture_then_restore 4096 [1, 2, 3, 4, 5, 6, 7] st1).cr0 = st1.cr0 ∧
    (capture_then_restore 4096 [1, 2, 3, 4, 5, 6, 7] st1).cr4 = st1.cr4 ∧
    (capture_then_restore 4096 [1, 2, 3, 4, 5, 6, 7] st1).cr3 = st1.cr3 ∧
    (capture_then_restore 4096 [1, 2, 3, 4, 5, 6, 7] st1).gdtr = st1.gdtr ∧
    (capture_then_restore 4096 [1, 2, 3, 4, 5, 6, 7] st1).idtr = st1.idtr ∧
    (capture_then_restore 4096 [1, 2, 3, 4, 5, 6, 7] st1).cs = st1.cs ∧
    (capture_then_restore 4096 [1, 2, 3, 4, 5, 6, 7] st1).ds = st1.ds ∧
    (capture_then_restore 4096 [1, 2, 3, 4, 5, 6, 7] st1).es = st1.es ∧
    (capture_then_restore 4096 [1, 2, 3, 4, 5, 6, 7] st1).fs = st1.fs ∧
    (capture_then_restore 4096 [1, 2, 3, 4, 5, 6, 7] st1).gs = st1.gs ∧
    (capture_then_restore 4096 [1, 2, 3, 4, 5, 6, 7] st1).tr = st1.tr ∧
    (capture_then_restore 4096 [1, 2, 3, 4, 5, 6, 7] st1).fs_base =
      st1.fs_base ∧
    (capture_then_restore 4096 [1, 2, 3, 4, 5, 6, 7] st1).gs_base =
      st1.gs_base :=
  capture_restore_roundtrip 4096 [1, 2, 3, 4, 5, 6, 7] st1
    (by decide) (by decide) (by decide)

/-! ### Ordering of register writes in restore (C9) -/

/-- Registers written by `LinuxContext::restore`, in program order. -/
inductive WReg where
  | PAT | EFER | KERNEL_GSBASE | STAR | CSTAR | FMASK
  | CR0 | CR4 | CR3 | TR | GDTR | IDTR | CS | DS | ES | FS | GS
  | FS_BASE | GS_BASE
deriving DecidableEq, Repr

/-- One register write performed by restore. -/
structure WriteEvent where
  reg : WReg
  value : Nat
deriving DecidableEq, Repr

/-- The sequence of register writes performed by `LinuxContext::restore`, in
the order of the source. -/
def restore_write_trace (ctx : LinuxContext) : List WriteEvent :=
  [⟨.PAT, ctx.pat⟩, ⟨.EFER, ctx.efer⟩, ⟨.KERNEL_GSBASE, ctx.kernel_gsbase⟩,
   ⟨.STAR, ctx.star⟩, ⟨.CSTAR, ctx.cstar⟩, ⟨.FMASK, ctx.fmask⟩,
   ⟨.CR0, ctx.cr0⟩, ⟨.CR4, ctx.cr4⟩,
   ⟨.CR3, ctx.cr3 &&& (USIZE_MOD - PAGE_SIZE)⟩,
   ⟨.TR, ctx.tss.selector⟩, ⟨.GDTR, ctx.gdt.base⟩, ⟨.IDTR, ctx.idt.base⟩,
   ⟨.CS, ctx.cs.selector⟩, ⟨.DS, ctx.ds.selector⟩, ⟨.ES, ctx.es.selector⟩,
   ⟨.FS, ctx.fs.selector⟩, ⟨.GS, ctx.gs.selector⟩,
   ⟨.FS_BASE, ctx.fs.base⟩, ⟨.GS_BASE, ctx.gs.base⟩]

/-- The registers of `restore_write_trace`, independent of the context. -/
def restore_reg_order : List WReg :=
  [.PAT, .EFER, .KERNEL_GSBASE, .STAR, .CSTAR, .FMASK, .CR0, .CR4, .CR3,
   .TR, .GDTR, .IDTR, .CS, .DS, .ES, .FS, .GS, .FS_BASE, .GS_BASE]

/-- C9: for every context, the registers written by restore follow
`restore_reg_order`, and in that order the CR3 write comes strictly after
every CR0 and CR4 write. -/
theorem cr3_written_after_cr0_cr4 (ctx : LinuxContext) :
    (restore_write_trace ctx).map WriteEvent.reg = restore_reg_order ∧
    ∀ (a b : Fin restore_reg_order.length),
      restore_reg_order.get a = WReg.CR3 →
      (restore_reg_order.get b = WReg.CR0 ∨
       restore_reg_order.get b = WReg.CR4) →
      b.val < a.val :=
  ⟨rfl, by decide⟩

/-- All-zero context used to instantiate the C9 theorem. -/
def ctx0 : LinuxContext :=
  { rsp := 0, rip := 0, r15 := 0, r14 := 0, r13 := 0, r12 := 0, rbx := 0
    rbp := 0, cs := ⟨0, 0⟩, ds := ⟨0, 0⟩, es := ⟨0, 0⟩, fs := ⟨0, 0⟩
    gs := ⟨0, 0⟩, tss := ⟨0, 0⟩, gdt := ⟨0, 0⟩, idt := ⟨0, 0⟩, cr0 := 0
    cr3 := 0, cr4 := 0, efer := 0, lstar := 0, pat := 0, kernel_gsbase := 0
    star := 0, cstar := 0, fmask := 0, mtrr_def_type := 0 }

/-- Witness for C9: at the concrete context `ctx0`, with CR3 at position 8
and CR0 at position 6 of the trace. -/
theorem cr3_written_after_cr0_cr4_witness :
    (restore_write_trace ctx0).map WriteEvent.reg = restore_reg_order ∧
    (6 : Nat) < 8 :=
  ⟨(cr3_written_after_cr0_cr4 ctx0).1,
   (cr3_written_after_cr0_cr4 ctx0).2 ⟨8, by decide⟩ ⟨6, by decide⟩
     (by decide) (Or.inl (by decide))⟩

/-! ### ARM capture indices (src/arch/ARM/context.rs, C10) -/

namespace arm

/-- Rust `SAVED_LINUX_REGS` of the ARM context: the slice built in
`load_from` has 31 elements. -/
def SAVED_LINUX_REGS : Nat := 31

/-- The slice indices read by the ARM `LinuxContext::load_from` struct
literal, in source order: `regs[0]` through `regs[30]` for the named
fields, then `regs[31]` (the second `sp` initializer) and `regs[32]`
(`pc`). -/
def load_from_reg_indices : List Nat := List.range 33

end arm

/-- C10 (code bug): the ARM capture reads indices 31 and 32 although the
slice has only `SAVED_LINUX_REGS = 31` elements, so not every index used is
within bounds. -/
theorem arm_load_from_index_out_of_bounds :
    31 ∈ arm.load_from_reg_indices ∧ 32 ∈ arm.load_from_reg_indices ∧
    ¬ (∀ i ∈ arm.load_from_reg_indices, i < arm.SAVED_LINUX_REGS) := by
  decide

end HyperEnclave
